import Mathlib

/-!
Verification of the go-plugin protocol bridge (`ts-cli-grpc-plugin/src/index.ts`).

The TypeScript source is shallowly embedded: pure functions (`formatHandshake`,
address normalization, the Health `Check` handler) become Lean functions over
`String`/`Nat`; the orchestration of `servePlugin` becomes a straight-line
function producing an explicit event trace; the stdio mirroring and shutdown
handlers become state transformers.  JavaScript strings are modelled by Lean
`String` (operating on `String.data`, the list of characters), JS numbers used
here (versions, ports) are natural numbers, and `undefined` is `Option.none`.
-/

namespace TsCliPlugin

/-- Network type for the gRPC server: `"tcp" | "unix"` in the source. -/
inductive NetworkType where
  | tcp
  | unix
deriving DecidableEq, Repr

/-- The string value a `NetworkType` denotes in the source (string literal union). -/
def NetworkType.render : NetworkType → String
  | .tcp => "tcp"
  | .unix => "unix"

/-- The handshake protocol field: `'grpc' | 'netrpc'` in the source. -/
inductive RpcProtocol where
  | grpc
  | netrpc
deriving DecidableEq, Repr

/-- The string value an `RpcProtocol` denotes in the source. -/
def RpcProtocol.render : RpcProtocol → String
  | .grpc => "grpc"
  | .netrpc => "netrpc"

/-- Embedding of `formatHandshake` (index.ts lines 103–111): the template
literal `` `${core}|${app}|${networkType}|${address}|${protocol}` ``.
JS number-to-string interpolation of a nonnegative integer is `Nat.repr`. -/
def formatHandshake (coreProtocolVersion appProtocolVersion : Nat)
    (networkType : NetworkType) (address : String)
    (protocol : RpcProtocol) : String :=
  Nat.repr coreProtocolVersion ++ "|" ++ Nat.repr appProtocolVersion ++ "|"
    ++ networkType.render ++ "|" ++ address ++ "|" ++ protocol.render

/-! Helper lemmas about decimal rendering of natural numbers. -/

theorem digitChar_isDigit : ∀ m, m < 10 → (Nat.digitChar m).isDigit = true := by
  decide

theorem toDigitsCore_digits (fuel : Nat) :
    ∀ (n : Nat) (ds : List Char), (∀ c ∈ ds, c.isDigit = true) →
      ∀ c ∈ Nat.toDigitsCore 10 fuel n ds, c.isDigit = true := by
  induction fuel with
  | zero => intro n ds h c hc; simpa [Nat.toDigitsCore] using h c hc
  | succ fuel ih =>
    intro n ds h c hc
    rw [Nat.toDigitsCore] at hc
    by_cases hz : n / 10 = 0
    · simp only [hz, if_pos rfl] at hc
      rcases List.mem_cons.mp hc with h1 | h2
      · subst h1; exact digitChar_isDigit _ (Nat.mod_lt _ (by omega))
      · exact h c h2
    · simp only [if_neg hz] at hc
      refine ih (n / 10) _ ?_ c hc
      intro d hd
      rcases List.mem_cons.mp hd with h1 | h2
      · subst h1; exact digitChar_isDigit _ (Nat.mod_lt _ (by omega))
      · exact h d h2

theorem repr_digits (n : Nat) : ∀ c ∈ (Nat.repr n).data, c.isDigit = true :=
  toDigitsCore_digits (n + 1) n [] (by intro c hc; cases hc)

theorem isDigit_ne_pipe {c : Char} (h : c.isDigit = true) : c ≠ '|' := by
  intro hc; subst hc; exact absurd h (by decide)

theorem isDigit_not_whitespace {c : Char} (h : c.isDigit = true) :
    c.isWhitespace = false := by
  cases hw : c.isWhitespace
  · rfl
  · exfalso
    have := hw
    simp only [Char.isWhitespace, Bool.or_eq_true, decide_eq_true_eq] at this
    rcases this with ((rfl | rfl) | rfl) | rfl <;> exact absurd h (by decide)

theorem pipe_not_mem_repr (n : Nat) : '|' ∉ (Nat.repr n).data := by
  intro hmem
  exact isDigit_ne_pipe (repr_digits n _ hmem) rfl

/-- Splitting a character list on the pipe character, the field-splitting
operation the spec uses to state invertibility of the handshake template. -/
def splitOnPipe : List Char → List (List Char)
  | [] => [[]]
  | c :: rest =>
    if c = '|' then [] :: splitOnPipe rest
    else
      match splitOnPipe rest with
      | [] => [[c]]
      | h :: t => (c :: h) :: t

theorem splitOnPipe_ne_nil (l : List Char) : splitOnPipe l ≠ [] := by
  induction l with
  | nil => simp [splitOnPipe]
  | cons c rest ih =>
    by_cases hc : c = '|'
    · simp [splitOnPipe, hc]
    · simp only [splitOnPipe, if_neg hc]
      cases hmatch : splitOnPipe rest with
      | nil => simp
      | cons h t => simp

theorem splitOnPipe_no_pipe (l : List Char) (h : '|' ∉ l) : splitOnPipe l = [l] := by
  induction l with
  | nil => rfl
  | cons c rest ih =>
    have hc : c ≠ '|' := fun hcp => h (hcp ▸ List.mem_cons_self c rest)
    have hrest : '|' ∉ rest := fun hr => h (List.mem_cons_of_mem c hr)
    simp only [splitOnPipe, if_neg hc, ih hrest]

theorem splitOnPipe_append_pipe (a b : List Char) (h : '|' ∉ a) :
    splitOnPipe (a ++ '|' :: b) = a :: splitOnPipe b := by
  induction a with
  | nil => simp [splitOnPipe]
  | cons c rest ih =>
    have hc : c ≠ '|' := fun hcp => h (hcp ▸ List.mem_cons_self c rest)
    have hrest : '|' ∉ rest := fun hr => h (List.mem_cons_of_mem c hr)
    simp only [List.cons_append, splitOnPipe, if_neg hc, List.append_eq, ih hrest]

theorem formatHandshake_data (c a : Nat) (nt : NetworkType) (ad : String)
    (p : RpcProtocol) :
    (formatHandshake c a nt ad p).data
      = (Nat.repr c).data ++ '|' :: ((Nat.repr a).data ++ '|' :: (nt.render.data
          ++ '|' :: (ad.data ++ '|' :: p.render.data))) := by
  simp [formatHandshake, String.data_append]

theorem render_not_whitespace (nt : NetworkType) :
    ∀ ch ∈ nt.render.data, ch.isWhitespace = false := by
  cases nt <;> decide

theorem protocol_not_whitespace (p : RpcProtocol) :
    ∀ ch ∈ p.render.data, ch.isWhitespace = false := by
  cases p <;> decide

/-- C1: for every core and application protocol version, transport kind,
address and protocol name, `formatHandshake` returns exactly the five fields
joined by literal pipe characters, with no added whitespace (any whitespace
byte in the output comes from the address field) and no trailing newline; in
particular `formatHandshake 1 42 tcp "127.0.0.1:1234" grpc` equals
`"1|42|tcp|127.0.0.1:1234|grpc"`.  Totality/purity is inherent: the embedding
is a total Lean function. -/
theorem formatHandshake_joined_fields (c a : Nat) (nt : NetworkType)
    (ad : String) (p : RpcProtocol) :
    (formatHandshake c a nt ad p).data
        = (Nat.repr c).data ++ '|' :: ((Nat.repr a).data ++ '|' :: (nt.render.data
            ++ '|' :: (ad.data ++ '|' :: p.render.data)))
      ∧ formatHandshake 1 42 NetworkType.tcp "127.0.0.1:1234" RpcProtocol.grpc
          = "1|42|tcp|127.0.0.1:1234|grpc"
      ∧ (formatHandshake c a nt ad p).data.getLast? ≠ some '\n'
      ∧ ∀ ch ∈ (formatHandshake c a nt ad p).data,
          ch.isWhitespace = true → ch ∈ ad.data := by
  refine ⟨formatHandshake_data c a nt ad p, by decide, ?_, ?_⟩
  · have hne : p.render.data ≠ [] := by cases p <;> decide
    have hflat : (formatHandshake c a nt ad p).data
        = (Nat.repr c ++ "|" ++ Nat.repr a ++ "|" ++ nt.render ++ "|" ++ ad
            ++ "|").data ++ p.render.data := by
      simp [formatHandshake, String.data_append]
    rw [hflat, List.getLast?_append_of_ne_nil _ hne]
    cases p <;> decide
  · intro ch hch hw
    rw [formatHandshake_data] at hch
    rcases List.mem_append.mp hch with h1 | h1
    · rw [isDigit_not_whitespace (repr_digits c ch h1)] at hw; cases hw
    rcases List.mem_cons.mp h1 with rfl | h1
    · exact absurd hw (by decide)
    rcases List.mem_append.mp h1 with h2 | h2
    · rw [isDigit_not_whitespace (repr_digits a ch h2)] at hw; cases hw
    rcases List.mem_cons.mp h2 with rfl | h2
    · exact absurd hw (by decide)
    rcases List.mem_append.mp h2 with h3 | h3
    · rw [render_not_whitespace nt ch h3] at hw; cases hw
    rcases List.mem_cons.mp h3 with rfl | h3
    · exact absurd hw (by decide)
    rcases List.mem_append.mp h3 with h4 | h4
    · exact h4
    rcases List.mem_cons.mp h4 with rfl | h4
    · exact absurd hw (by decide)
    · rw [protocol_not_whitespace p ch h4] at hw; cases hw

/-- Witness for C1: an instance with a whitespace byte in the address,
exercising the no-added-whitespace conjunct at a concrete input. -/
theorem formatHandshake_joined_fields_witness : ' ' ∈ ("a b" : String).data :=
  (formatHandshake_joined_fields 5 7 NetworkType.unix "a b"
    RpcProtocol.netrpc).2.2.2 ' ' (by decide) (by decide)

/-- C9: for every tuple whose address is pipe-free (the validity condition of
the template), formatting with `formatHandshake` and then splitting the result
on the pipe character losslessly recovers the five original fields. -/
theorem formatHandshake_split_roundtrip (c a : Nat) (nt : NetworkType)
    (ad : String) (p : RpcProtocol) (h : '|' ∉ ad.data) :
    splitOnPipe (formatHandshake c a nt ad p).data
      = [(Nat.repr c).data, (Nat.repr a).data, nt.render.data, ad.data,
          p.render.data] := by
  have hnt : '|' ∉ nt.render.data := by cases nt <;> decide
  have hp : '|' ∉ p.render.data := by cases p <;> decide
  rw [formatHandshake_data,
    splitOnPipe_append_pipe _ _ (pipe_not_mem_repr c),
    splitOnPipe_append_pipe _ _ (pipe_not_mem_repr a),
    splitOnPipe_append_pipe _ _ hnt,
    splitOnPipe_append_pipe _ _ h,
    splitOnPipe_no_pipe _ hp]

/-- Witness for C9: round-trip at the concrete handshake of the spec's
example. -/
theorem formatHandshake_split_roundtrip_witness :
    splitOnPipe (formatHandshake 1 42 NetworkType.tcp "127.0.0.1:1234"
        RpcProtocol.grpc).data
      = [(Nat.repr 1).data, (Nat.repr 42).data, NetworkType.tcp.render.data,
          ("127.0.0.1:1234" : String).data, RpcProtocol.grpc.render.data] :=
  formatHandshake_split_roundtrip 1 42 NetworkType.tcp "127.0.0.1:1234"
    RpcProtocol.grpc (by decide)

/-! Health reporter (index.ts lines 237–261). -/

namespace ServingStatus

/-- Health status code `UNKNOWN` (index.ts `ServingStatus` object). -/
def UNKNOWN : Nat := 0

/-- Health status code `SERVING`. -/
def SERVING : Nat := 1

/-- Health status code `NOT_SERVING`. -/
def NOT_SERVING : Nat := 2

/-- Health status code `SERVICE_UNKNOWN`. -/
def SERVICE_UNKNOWN : Nat := 3

end ServingStatus

/-- The in-memory status table: `statusMap.set('plugin', ServingStatus.SERVING)`
is its only entry, modelled as an association list. -/
def statusMap : List (String × Nat) := [("plugin", ServingStatus.SERVING)]

/-- Embedding of `HealthCheckRequest`: `{ service?: string }`; a missing
`service` is `none`. -/
structure HealthCheckRequest where
  service : Option String

/-- Embedding of the `Check` handler body (index.ts lines 248–255):
`const service = call.request?.service || ''` and
`statusMap.get(service || 'plugin') ?? ServingStatus.SERVICE_UNKNOWN`.
The request itself may be absent (`call.request?` is an optional chain). -/
def healthCheck (request : Option HealthCheckRequest) : Nat :=
  let service := (request.bind HealthCheckRequest.service).getD ""
  let key := if service = "" then "plugin" else service
  (statusMap.lookup key).getD ServingStatus.SERVICE_UNKNOWN

/-- C3: `Check` treats the empty service name as `"plugin"`;
`Check("plugin")` and therefore `Check("")` (and a wholly absent request)
return `SERVING`; and every name not present in the status table yields
`SERVICE_UNKNOWN`.  Totality over all string inputs is inherent: `healthCheck`
is a total Lean function, so no input fails or throws. -/
theorem healthCheck_spec :
    healthCheck (some ⟨some ""⟩) = ServingStatus.SERVING
      ∧ healthCheck (some ⟨some "plugin"⟩) = ServingStatus.SERVING
      ∧ healthCheck none = ServingStatus.SERVING
      ∧ healthCheck (some ⟨some ""⟩) = healthCheck (some ⟨some "plugin"⟩)
      ∧ ∀ s : String, s ≠ "plugin" → s ≠ "" →
          healthCheck (some ⟨some s⟩) = ServingStatus.SERVICE_UNKNOWN := by
  refine ⟨by decide, by decide, by decide, by decide, ?_⟩
  intro s hs hs0
  simp only [healthCheck, Option.bind, Option.getD, statusMap]
  rw [if_neg hs0]
  have hbeq : (s == "plugin") = false := beq_eq_false_iff_ne.mpr hs
  simp [List.lookup, hbeq, ServingStatus.SERVICE_UNKNOWN]

/-- Witness for C3: an unregistered concrete name maps to `SERVICE_UNKNOWN`. -/
theorem healthCheck_spec_witness :
    healthCheck (some ⟨some "database"⟩) = ServingStatus.SERVICE_UNKNOWN :=
  healthCheck_spec.2.2.2.2 "database" (by decide) (by decide)

/-! Stdio bridge (index.ts lines 267–313). -/

/-- Bytes of a Node `Buffer`. -/
abbrev Bytes := List Nat

/-- A chunk passed to `process.stdout.write` / `process.stderr.write`:
either a JS string or a `Buffer`/`Uint8Array`. -/
inductive WriteChunk where
  | str (s : String)
  | buf (b : Bytes)

/-- Embedding of `Buffer.isBuffer(chunk) ? chunk : Buffer.from(String(chunk))`
(index.ts line 281): a buffer is forwarded as-is, a string is converted to
bytes (modelled as its code points). -/
def chunkToData : WriteChunk → Bytes
  | .str s => s.data.map Char.toNat
  | .buf b => b

/-- A `StdioChunk` record pushed on the `GRPCStdio` stream: `{ channel, data }`. -/
structure StdioChunk where
  channel : Nat
  data : Bytes
deriving DecidableEq

/-- The `Channel` discriminators (index.ts line 272). -/
def Channel.INVALID : Nat := 0

/-- Channel tag for mirrored standard output. -/
def Channel.STDOUT : Nat := 1

/-- Channel tag for mirrored standard error. -/
def Channel.STDERR : Nat := 2

/-- State of the (at most one) attached `GRPCStdio` stream.  `sent` is the
sequence of records the stream has accepted; `broken` models a stream whose
writes no longer go through (closed or cancelled concurrently).  Node stream
semantics: `write` reports failure through its return value or an error
event, never by throwing synchronously into the caller, so the write below is
a total function that drops the record on a broken stream. -/
structure StreamHandle where
  sent : List StdioChunk
  broken : Bool

/-- The collaborator `stream.write(record)`: appends on a healthy stream,
drops (and reports `false`) on a broken one. -/
def streamWrite (h : StreamHandle) (m : StdioChunk) : StreamHandle × Bool :=
  if h.broken then (h, false) else ({ h with sent := h.sent ++ [m] }, true)

/-- Process-level mirroring state: `stdioStream` is the mutable
`grpc.ServerWritableStream | undefined` captured by `forward`; `localSink`
receives everything written through the original (pre-wrap) OS-level sink. -/
structure MirrorState where
  stdioStream : Option StreamHandle
  localSink : List Bytes

/-- Embedding of `forward(channel, chunk)` (index.ts lines 279–283): return
early when no stream is attached, otherwise build the data buffer and write
`{ channel, data }` to the attached stream. -/
def forward (st : MirrorState) (channel : Nat) (chunk : WriteChunk) : MirrorState :=
  match st.stdioStream with
  | none => st
  | some h =>
      let data := chunkToData chunk
      { st with stdioStream := some (streamWrite h ⟨channel, data⟩).1 }

/-- Embedding of the wrapper produced by `wrapWrite(original, channel)`
(index.ts lines 284–299): first `forward(channel, chunk)`, then delegate to
the original write, which delivers the chunk's bytes to the real OS-level
sink.  The returned `Bool` is the original write's backpressure result. -/
def wrappedWrite (channel : Nat) (st : MirrorState) (chunk : WriteChunk) :
    MirrorState × Bool :=
  let st1 := forward st channel chunk
  ({ st1 with localSink := st1.localSink ++ [chunkToData chunk] }, true)

/-- C5: after the stdio bridge is installed, every write through the wrapped
sink (a) always delivers the bytes to the real OS-level sink — including when
the attached stream is broken, so a forwarding failure never suppresses local
output and never raises to the caller (the wrapper is a total function);
(b) when no stream is attached, the mirrored copy is silently dropped (the
mirroring state is untouched); (c) a broken attached stream absorbs the
mirrored record without any further effect. -/
theorem wrappedWrite_spec (channel : Nat) (st : MirrorState) (chunk : WriteChunk) :
    (wrappedWrite channel st chunk).1.localSink
        = st.localSink ++ [chunkToData chunk]
      ∧ (st.stdioStream = none →
          (wrappedWrite channel st chunk).1.stdioStream = none)
      ∧ (∀ h, st.stdioStream = some h → h.broken = true →
          (wrappedWrite channel st chunk).1.stdioStream = some h) := by
  refine ⟨?_, ?_, ?_⟩
  · cases hst : st.stdioStream <;> simp [wrappedWrite, forward, hst]
  · intro h0
    simp [wrappedWrite, forward, h0]
  · intro h h0 hbroken
    simp [wrappedWrite, forward, h0, streamWrite, hbroken]

/-- Witness for C5: with no attachment the mirroring state is untouched, and
with a broken attachment the stream state is untouched, at concrete inputs. -/
theorem wrappedWrite_spec_witness :
    (wrappedWrite Channel.STDOUT ⟨none, []⟩ (WriteChunk.str "hi")).1.stdioStream
        = none
      ∧ (wrappedWrite Channel.STDERR ⟨some ⟨[], true⟩, []⟩
          (WriteChunk.buf [104, 105])).1.stdioStream = some ⟨[], true⟩ :=
  ⟨(wrappedWrite_spec Channel.STDOUT ⟨none, []⟩ (WriteChunk.str "hi")).2.1 rfl,
    (wrappedWrite_spec Channel.STDERR ⟨some ⟨[], true⟩, []⟩
      (WriteChunk.buf [104, 105])).2.2 ⟨[], true⟩ rfl rfl⟩

/-! Shutdown controller (index.ts lines 317–334). -/

/-- Observable actions of the `shutdown` handler.  `forceStop ok` records the
`server.forceShutdown()` call — the immediate, non-draining stop — with `ok`
recording whether the underlying stop succeeded; `respondOk` is the
`callback(null, {})` reply; `scheduleExit code` is a `process.exit(code)`. -/
inductive CtrlEv where
  | forceStop (ok : Bool)
  | respondOk
  | scheduleExit (code : Nat)
deriving DecidableEq

/-- Result of one handler invocation: the actions performed synchronously
inside the handler, and the actions deferred to a fresh scheduler iteration
via `setImmediate`. -/
structure ShutdownRun where
  sync : List CtrlEv
  deferred : List CtrlEv
deriving DecidableEq

/-- The collaborator `server.forceShutdown()`: may throw, modelled by an
optional error. -/
def serverForceShutdown (stopError : Option String) : Except String Unit :=
  match stopError with
  | some e => Except.error e
  | none => Except.ok ()

/-- Embedding of the `shutdown` handler (index.ts lines 320–332):
`try { server.forceShutdown() } catch { /* ignore */ }`, then
`callback(null, {})`, then `setImmediate(() => process.exit(0))`.  The
handler returns `Except` so that an escaping exception would be visible as
`.error`; the `try/catch` routes both outcomes of the stop into the same
continuation. -/
def shutdown (stopError : Option String) : Except String ShutdownRun :=
  let stopEv : CtrlEv :=
    match serverForceShutdown stopError with
    | Except.ok _ => CtrlEv.forceStop true
    | Except.error _ => CtrlEv.forceStop false
  Except.ok
    { sync := [stopEv, CtrlEv.respondOk]
      deferred := [CtrlEv.scheduleExit 0] }

/-- C4: on every invocation of the remote `Shutdown` operation — whether or
not stopping the transport raises — the handler (a) first tells the serving
transport to stop via the immediate, non-draining `forceShutdown`; (b) never
surfaces a stop error to the caller (the run is always `.ok`); (c) returns
its own empty response to the caller synchronously, after the stop; and
(d) the process exit with status 0 happens only on the deferred list (a fresh
scheduler iteration), never synchronously inside the handler. -/
theorem shutdown_spec (stopError : Option String) :
    ∃ run, shutdown stopError = Except.ok run
      ∧ run.sync = [CtrlEv.forceStop stopError.isNone, CtrlEv.respondOk]
      ∧ run.deferred = [CtrlEv.scheduleExit 0]
      ∧ ∀ code, CtrlEv.scheduleExit code ∉ run.sync := by
  cases stopError <;>
    exact ⟨_, rfl, rfl, rfl, by
      intro code hc
      simp [shutdown, serverForceShutdown] at hc⟩

/-- Witness for C4: the characterization applied at a concrete invocation in
which stopping the transport throws. -/
theorem shutdown_spec_witness :
    ∃ run, shutdown (some "stop failed") = Except.ok run
      ∧ run.sync = [CtrlEv.forceStop (some "stop failed").isNone,
          CtrlEv.respondOk]
      ∧ run.deferred = [CtrlEv.scheduleExit 0]
      ∧ ∀ code, CtrlEv.scheduleExit code ∉ run.sync :=
  shutdown_spec (some "stop failed")

/-! Bridge orchestrator: `servePlugin` (index.ts lines 228–379). -/

/-- Embedding of `ServeOptions`.  `register` is the optional user callback:
`none` models its absence, `some (Except.ok ())` a callback that returns
normally, `some (Except.error e)` one that throws `e`. -/
structure ServeOptions where
  appProtocolVersion : Nat
  address : String
  networkType : Option NetworkType
  register : Option (Except String Unit)

/-- Which of the two internal service definitions the loaded package exposes
(`internalPkgs.plugin.GRPCStdio?.service` and
`internalPkgs.plugin.GRPCController?.service`). -/
structure InternalServices where
  hasStdio : Bool
  hasController : Bool

/-- Outcomes of the startup collaborators: `loadHealthDefinition` (throws
when the health proto cannot be loaded), `loadInternalPluginDefinition`
(resolves to `undefined` when the internal protos are absent), and
`server.bindAsync` (errors, or yields the actual bound port). -/
structure Env where
  healthLoad : Except String Unit
  internal : Option InternalServices
  bindResult : Except String Nat

/-- Observable startup events of `servePlugin`, in program order. -/
inductive SEv where
  | registerHealth
  | installStdioWraps
  | registerStdio
  | registerController
  | registerUser
  | bindRequested (addr : String)
  | bound (port : Nat)
  | serverStart
  | stdoutWrite (s : String)
deriving DecidableEq

/-- Embedding of JS `s.startsWith(p)` on code points. -/
def jsStartsWith (s p : String) : Bool :=
  p.data.isPrefixOf s.data

/-- Embedding of the regex test `/:\d+$/.test(s)` (index.ts line 347): the
string ends with a colon followed by one or more decimal digits. -/
def endsWithPortPattern (s : String) : Bool :=
  let rev := s.data.reverse
  let digits := rev.takeWhile Char.isDigit
  !digits.isEmpty && ((rev.drop digits.length).head? == some ':')

/-- Embedding of `s.split(':')[0]`: the segment before the first colon (the
whole string when it contains none). -/
def splitColonHead (s : String) : String :=
  ⟨s.data.takeWhile (fun c => !(c == ':'))⟩

/-- The spec-named scheme normalization for filesystem sockets (index.ts
lines 344–346): prefix `unix:` when not already present. -/
def normalizeUnixAddress (s : String) : String :=
  if jsStartsWith s "unix:" then s else "unix:" ++ s

/-- Address normalization before binding (index.ts lines 343–350): the two
sequential `if` statements — prefix `unix:` for unix sockets when absent,
then append `:0` (an ephemeral-port request) for tcp when the address does
not already end in an explicit port. -/
def resolveBindAddress (networkType : NetworkType) (address : String) : String :=
  let a1 :=
    if networkType == NetworkType.unix && !jsStartsWith address "unix:" then
      "unix:" ++ address
    else address
  if networkType == NetworkType.tcp && !endsWithPortPattern a1 then
    a1 ++ ":0"
  else a1

/-- Advertised-address computation (index.ts lines 360–364): for tcp the
host is `bindAddress.split(':')[0] || '127.0.0.1'` and the port is the
actual bound port; otherwise the (normalized) bind address itself. -/
def advertisedAddress (networkType : NetworkType) (bindAddress : String)
    (port : Nat) : String :=
  if networkType == NetworkType.tcp then
    (if splitColonHead bindAddress = "" then "127.0.0.1"
      else splitColonHead bindAddress) ++ ":" ++ Nat.repr port
  else bindAddress

/-- Embedding of `servePlugin` (index.ts lines 228–379) as a straight-line
computation over the collaborator outcomes in `Env`, producing the ordered
event trace together with either the startup error or the advertised address
the returned object carries. -/
def servePlugin (env : Env) (options : ServeOptions) :
    List SEv × Except String String :=
  let networkType := options.networkType.getD NetworkType.tcp
  match env.healthLoad with
  | Except.error e => ([], Except.error e)
  | Except.ok _ =>
    let tr2 := SEv.registerHealth ::
      (match env.internal with
       | none => []
       | some svcs =>
          (if svcs.hasStdio then [SEv.installStdioWraps, SEv.registerStdio]
            else [])
            ++ (if svcs.hasController then [SEv.registerController] else []))
    let tr3 := tr2 ++ (if options.register.isSome then [SEv.registerUser] else [])
    match options.register with
    | some (Except.error e) => (tr3, Except.error e)
    | _ =>
      let bindAddress := resolveBindAddress networkType options.address
      let tr4 := tr3 ++ [SEv.bindRequested bindAddress]
      match env.bindResult with
      | Except.error e => (tr4, Except.error e)
      | Except.ok port =>
        let addr := advertisedAddress networkType bindAddress port
        let handshake :=
          formatHandshake 1 options.appProtocolVersion networkType addr
            RpcProtocol.grpc
        (tr4 ++ [SEv.bound port, SEv.serverStart,
          SEv.stdoutWrite (handshake ++ "\n")], Except.ok addr)

/-- Recognizer for stdout-write events. -/
def SEv.isStdoutWrite : SEv → Bool
  | .stdoutWrite _ => true
  | _ => false

/-- Scans a trace checking that every stdout write is preceded by both a
successful bind and a server start. -/
def writesAfterBoundAndStart : Bool → Bool → List SEv → Bool
  | _, _, [] => true
  | seenBound, seenStart, e :: rest =>
    match e with
    | SEv.bound _ => writesAfterBoundAndStart true seenStart rest
    | SEv.serverStart => writesAfterBoundAndStart seenBound true rest
    | SEv.stdoutWrite _ =>
        seenBound && seenStart
          && writesAfterBoundAndStart seenBound seenStart rest
    | _ => writesAfterBoundAndStart seenBound seenStart rest

/-- C2: across the full lifetime of one `servePlugin` call, for every
collaborator outcome and option set, exactly one handshake line is written to
standard output when startup succeeds and none when it fails; the single
write is the handshake followed by a single newline; and every stdout write
in the trace occurs only after both a successful transport bind and the
server start. -/
theorem servePlugin_handshake_once (env : Env) (options : ServeOptions) :
    ((servePlugin env options).1.filter SEv.isStdoutWrite).length
        = (match (servePlugin env options).2 with
           | Except.ok _ => 1
           | Except.error _ => 0)
      ∧ writesAfterBoundAndStart false false (servePlugin env options).1 = true
      ∧ ∀ ad, (servePlugin env options).2 = Except.ok ad →
          (servePlugin env options).1.filter SEv.isStdoutWrite
            = [SEv.stdoutWrite (formatHandshake 1 options.appProtocolVersion
                (options.networkType.getD NetworkType.tcp) ad RpcProtocol.grpc
                  ++ "\n")] := by
  rcases env with ⟨hl | hl, hi, hb | hb⟩ <;>
    rcases options with ⟨app, addr, nt, _ | (_ | re)⟩ <;>
    rcases hi with _ | ⟨(_ | _), (_ | _)⟩ <;>
    refine ⟨?_, ?_, ?_⟩ <;>
    simp_all [servePlugin, writesAfterBoundAndStart, List.filter,
      SEv.isStdoutWrite]

/-- Witness for C2: the single-write characterization applied at a concrete
successful startup. -/
theorem servePlugin_handshake_once_witness :
    (servePlugin ⟨Except.ok (), some ⟨true, true⟩, Except.ok 54321⟩
        ⟨7, "127.0.0.1", some NetworkType.tcp, none⟩).1.filter SEv.isStdoutWrite
      = [SEv.stdoutWrite (formatHandshake 1 7 NetworkType.tcp "127.0.0.1:54321"
          RpcProtocol.grpc ++ "\n")] :=
  (servePlugin_handshake_once ⟨Except.ok (), some ⟨true, true⟩, Except.ok 54321⟩
    ⟨7, "127.0.0.1", some NetworkType.tcp, none⟩).2.2 "127.0.0.1:54321" rfl

theorem splitColonHead_append_port (s : String) :
    splitColonHead (s ++ ":0") = splitColonHead s := by
  have hdata : (s ++ ":0").data = s.data ++ [':', '0'] := String.data_append s ":0"
  simp only [splitColonHead, hdata]
  rw [List.takeWhile_append]
  split
  · next h =>
    have hpre : (s.data.takeWhile fun c => !(c == ':')) <+: s.data :=
      List.takeWhile_prefix _
    have heq := hpre.eq_of_length h
    simp [heq, List.takeWhile]
  · rfl

theorem splitColonHead_resolve_tcp (addr : String) :
    splitColonHead (resolveBindAddress NetworkType.tcp addr)
      = splitColonHead addr := by
  by_cases hport : endsWithPortPattern addr = true
  · simp [resolveBindAddress, hport]
  · simp only [Bool.not_eq_true] at hport
    simp [resolveBindAddress, hport, splitColonHead_append_port]

theorem isPrefixOf_append_self (l t : List Char) : l.isPrefixOf (l ++ t) = true := by
  induction l with
  | nil => simp [List.isPrefixOf]
  | cons c cs ih => simp [List.isPrefixOf, ih]

theorem jsStartsWith_unix_append (s : String) :
    jsStartsWith ("unix:" ++ s) "unix:" = true := by
  simp only [jsStartsWith, String.data_append]
  exact isPrefixOf_append_self _ _

theorem normalizeUnixAddress_idem (s : String) :
    normalizeUnixAddress (normalizeUnixAddress s) = normalizeUnixAddress s := by
  by_cases h : jsStartsWith s "unix:" = true
  · simp [normalizeUnixAddress, h]
  · simp [normalizeUnixAddress, h, jsStartsWith_unix_append]

theorem resolveBindAddress_unix (s : String) :
    resolveBindAddress NetworkType.unix s = normalizeUnixAddress s := by
  by_cases h : jsStartsWith s "unix:" = true <;>
    simp [resolveBindAddress, normalizeUnixAddress, h]

/-- C6: when `servePlugin` is started with tcp and an address that does not
end in a port, the bind request is for the ephemeral port `:0`, and — under
the operating-system contract that a successful ephemeral bind reports a
strictly positive actual port — the advertised address placed in the result
has the form `host:port` with the OS-assigned port, strictly greater than 0
(hence never the literal 0). -/
theorem servePlugin_tcp_ephemeral (addr : String) (app : Nat) (env : Env)
    (reg : Option (Except String Unit)) (p : Nat)
    (hnoport : endsWithPortPattern addr = false)
    (hhealth : env.healthLoad = Except.ok ())
    (hreg : ∀ e, reg ≠ some (Except.error e))
    (hbind : env.bindResult = Except.ok p)
    (hp : 0 < p) :
    SEv.bindRequested (addr ++ ":0")
        ∈ (servePlugin env ⟨app, addr, some NetworkType.tcp, reg⟩).1
      ∧ (servePlugin env ⟨app, addr, some NetworkType.tcp, reg⟩).2
          = Except.ok ((if splitColonHead addr = "" then "127.0.0.1"
              else splitColonHead addr) ++ ":" ++ Nat.repr p)
      ∧ 0 < p := by
  obtain ⟨hl, hi, hb⟩ := env
  simp only at hhealth hbind
  subst hhealth hbind
  have hra : resolveBindAddress NetworkType.tcp addr = addr ++ ":0" := by
    simp [resolveBindAddress, hnoport]
  rcases reg with _ | (re | _)
  · refine ⟨?_, ?_, hp⟩ <;>
      simp [servePlugin, hra, advertisedAddress, splitColonHead_append_port]
  · exact absurd rfl (hreg re)
  · refine ⟨?_, ?_, hp⟩ <;>
      simp [servePlugin, hra, advertisedAddress, splitColonHead_append_port]

/-- Witness for C6: a concrete ephemeral-port startup. -/
theorem servePlugin_tcp_ephemeral_witness :
    SEv.bindRequested ("127.0.0.1" ++ ":0")
        ∈ (servePlugin ⟨Except.ok (), none, Except.ok 4321⟩
            ⟨1, "127.0.0.1", some NetworkType.tcp, none⟩).1
      ∧ (servePlugin ⟨Except.ok (), none, Except.ok 4321⟩
            ⟨1, "127.0.0.1", some NetworkType.tcp, none⟩).2
          = Except.ok ((if splitColonHead "127.0.0.1" = "" then "127.0.0.1"
              else splitColonHead "127.0.0.1") ++ ":" ++ Nat.repr 4321)
      ∧ 0 < 4321 :=
  servePlugin_tcp_ephemeral "127.0.0.1" 1 ⟨Except.ok (), none, Except.ok 4321⟩
    none 4321 (by decide) rfl (fun _ h => nomatch h) rfl (by decide)

/-- C7: when `servePlugin` is started with unix and a path address, the
advertised address equals the path with the `unix:` scheme prefixed when not
already present and unchanged when present, and this normalization is
idempotent. -/
theorem servePlugin_unix_advertised (path : String) (app : Nat) (env : Env)
    (reg : Option (Except String Unit)) (p : Nat)
    (hhealth : env.healthLoad = Except.ok ())
    (hreg : ∀ e, reg ≠ some (Except.error e))
    (hbind : env.bindResult = Except.ok p) :
    (servePlugin env ⟨app, path, some NetworkType.unix, reg⟩).2
        = Except.ok (normalizeUnixAddress path)
      ∧ (jsStartsWith path "unix:" = true → normalizeUnixAddress path = path)
      ∧ (jsStartsWith path "unix:" = false →
          normalizeUnixAddress path = "unix:" ++ path)
      ∧ normalizeUnixAddress (normalizeUnixAddress path)
          = normalizeUnixAddress path := by
  obtain ⟨hl, hi, hb⟩ := env
  simp only at hhealth hbind
  subst hhealth hbind
  refine ⟨?_, ?_, ?_, normalizeUnixAddress_idem path⟩
  · rcases reg with _ | (re | _)
    · simp [servePlugin, resolveBindAddress_unix, advertisedAddress]
    · exact absurd rfl (hreg re)
    · simp [servePlugin, resolveBindAddress_unix, advertisedAddress]
  · intro h; simp [normalizeUnixAddress, h]
  · intro h; simp [normalizeUnixAddress, h]

/-- Witness for C7: a concrete unix-socket startup on an unprefixed path. -/
theorem servePlugin_unix_advertised_witness :
    (servePlugin ⟨Except.ok (), some ⟨false, true⟩, Except.ok 1⟩
        ⟨2, "/tmp/x.sock", some NetworkType.unix, none⟩).2
        = Except.ok (normalizeUnixAddress "/tmp/x.sock")
      ∧ (jsStartsWith "/tmp/x.sock" "unix:" = true →
          normalizeUnixAddress "/tmp/x.sock" = "/tmp/x.sock")
      ∧ (jsStartsWith "/tmp/x.sock" "unix:" = false →
          normalizeUnixAddress "/tmp/x.sock" = "unix:" ++ "/tmp/x.sock")
      ∧ normalizeUnixAddress (normalizeUnixAddress "/tmp/x.sock")
          = normalizeUnixAddress "/tmp/x.sock" :=
  servePlugin_unix_advertised "/tmp/x.sock" 2
    ⟨Except.ok (), some ⟨false, true⟩, Except.ok 1⟩ none 1 rfl
    (fun _ h => nomatch h) rfl

/-- C8: the internal `GRPCStdio` and `GRPCController` services are registered
if and only if their definitions are resolvable at startup; when absent,
registration is skipped and startup still succeeds (given the other
collaborators succeed); whereas a Health definition load failure is fatal,
aborts startup with that error, and no handshake is written. -/
theorem servePlugin_internal_optional (env : Env) (options : ServeOptions) :
    (env.healthLoad = Except.ok () →
        ((SEv.registerStdio ∈ (servePlugin env options).1)
            ↔ ∃ svcs, env.internal = some svcs ∧ svcs.hasStdio = true)
          ∧ ((SEv.registerController ∈ (servePlugin env options).1)
            ↔ ∃ svcs, env.internal = some svcs ∧ svcs.hasController = true))
      ∧ (∀ e, env.healthLoad = Except.error e →
          (servePlugin env options).2 = Except.error e
            ∧ ∀ s, SEv.stdoutWrite s ∉ (servePlugin env options).1)
      ∧ (env.internal = none → env.healthLoad = Except.ok () →
          (∀ e, options.register ≠ some (Except.error e)) →
          ∀ p, env.bindResult = Except.ok p →
          ∃ ad, (servePlugin env options).2 = Except.ok ad) := by
  rcases env with ⟨hl | hl, hi, hb | hb⟩ <;>
    rcases options with ⟨app, addr, nt, _ | (_ | re)⟩ <;>
    rcases hi with _ | ⟨(_ | _), (_ | _)⟩ <;>
    refine ⟨?_, ?_, ?_⟩ <;>
    simp_all [servePlugin]

/-- Witness for C8: at a concrete environment with the internal protos absent
and everything else healthy, startup succeeds. -/
theorem servePlugin_internal_optional_witness :
    ∃ ad, (servePlugin ⟨Except.ok (), none, Except.ok 9⟩
        ⟨1, "127.0.0.1:9", some NetworkType.tcp, none⟩).2 = Except.ok ad :=
  (servePlugin_internal_optional ⟨Except.ok (), none, Except.ok 9⟩
      ⟨1, "127.0.0.1:9", some NetworkType.tcp, none⟩).2.2 rfl rfl
    (fun _ h => nomatch h) 9 rfl

/-- C10: whenever `servePlugin` resolves, its `address` field is byte-identical
to the ADDR field of the handshake line just written (the trace contains the
write of the handshake formatted with that very address); and for tcp the
advertised address is the configured address's segment before the first colon
(defaulting to `127.0.0.1` when that segment is empty) joined with the actual
OS-assigned bound port — also when the configured address carried an explicit
port. -/
theorem servePlugin_result_address (env : Env) (options : ServeOptions)
    (ad : String) (h : (servePlugin env options).2 = Except.ok ad) :
    SEv.stdoutWrite (formatHandshake 1 options.appProtocolVersion
        (options.networkType.getD NetworkType.tcp) ad RpcProtocol.grpc ++ "\n")
        ∈ (servePlugin env options).1
      ∧ (options.networkType.getD NetworkType.tcp = NetworkType.tcp →
          ∀ p, env.bindResult = Except.ok p →
            ad = (if splitColonHead options.address = "" then "127.0.0.1"
                else splitColonHead options.address) ++ ":" ++ Nat.repr p) := by
  rcases env with ⟨hl | hl, hi, hb | hb⟩ <;>
    rcases options with ⟨app, addr, nt, _ | (_ | re)⟩ <;>
    rcases nt with _ | (_ | _) <;>
    refine ⟨?_, ?_⟩ <;>
    simp_all [servePlugin, advertisedAddress, splitColonHead_resolve_tcp]

/-- Witness for C10: a concrete startup whose configured address carries an
explicit port 80 while the OS-assigned port is 2048. -/
theorem servePlugin_result_address_witness :
    SEv.stdoutWrite (formatHandshake 1 3 ((some NetworkType.tcp).getD
        NetworkType.tcp) "0.0.0.0:2048" RpcProtocol.grpc ++ "\n")
        ∈ (servePlugin ⟨Except.ok (), none, Except.ok 2048⟩
            ⟨3, "0.0.0.0:80", some NetworkType.tcp, none⟩).1
      ∧ ((some NetworkType.tcp).getD NetworkType.tcp = NetworkType.tcp →
          ∀ p, (Except.ok 2048 : Except String Nat) = Except.ok p →
            "0.0.0.0:2048" = (if splitColonHead "0.0.0.0:80" = "" then "127.0.0.1"
                else splitColonHead "0.0.0.0:80") ++ ":" ++ Nat.repr p) :=
  servePlugin_result_address ⟨Except.ok (), none, Except.ok 2048⟩
    ⟨3, "0.0.0.0:80", some NetworkType.tcp, none⟩ "0.0.0.0:2048" rfl

end TsCliPlugin
